import Mathlib

set_option autoImplicit false

namespace SeventeenTrack

/-! Shallow embedding of the 17TrackDashboard tracking pipeline
(src/utils.py: class API17Track, get_shipping_metrics, get_country;
src/main.py: the `processing` batch loop and reconciliation steps). -/

/-- Error code `API17Track.TRACKING_REGISTERED` (utils.py line 27). -/
def TRACKING_REGISTERED : Int := -18019901

/-- Error code `API17Track.TRACKING_NEED_REGISTER` (utils.py line 28). -/
def TRACKING_NEED_REGISTER : Int := -18019902

/-- Error code `API17Track.QUOTA_LIMIT` (utils.py line 29). -/
def QUOTA_LIMIT : Int := -18019908

/-- One tracking event inside a provider payload. A field is `none` when the
corresponding attribute is absent, i.e. `hasattr(event, "sub_status")` /
`hasattr(event, "time_raw")` is false in `_build_order_data` (utils.py 102). -/
structure TrackEvent where
  sub_status : Option String
  time_raw_date : Option String
deriving DecidableEq

/-- An accepted `gettrackinfo` payload, flattened to the attribute paths that
`_build_order_data` (utils.py 85-109) actually reads. -/
structure Payload where
  number : String
  carrier_name : String
  shipping_country : String
  recipient_country : String
  latest_status : Option String
  days_after_order : Int
  days_of_transit : Int
  events : Option (List TrackEvent)
deriving DecidableEq

/-- The `error` object of the first rejected item of a provider response. -/
structure ProviderErrorInfo where
  code : Int
  message : String
deriving DecidableEq

/-- The provider's answer to one call, after partitioning into
`accepted`/`rejected` (utils.py 46-49): either the first accepted payload or
the first rejected item's error. -/
inductive ProviderResponse where
  | accepted (payload : Payload)
  | rejected (error : ProviderErrorInfo)
deriving DecidableEq

/-- The two Python exception shapes this code raises: a plain `Exception`
(carrying only a message) and `API17TrackError` (utils.py 112-115), whose
`code` attribute holds the rejected error object; we keep its numeric code,
which main.py reads as `retry_e.code.code`. -/
inductive PyError where
  | plainExc (message : String)
  | apiError (code : Int) (message : String)
deriving DecidableEq

/-- `str(e)` for the exceptions above: both render as their message. -/
def pyMessage : PyError → String
  | .plainExc m => m
  | .apiError _ m => m

/-- A cell of the order dict built by `_build_order_data`: a string, an int, or
Python `None` (for a null `latest_status`). -/
inductive CellValue where
  | str (s : String)
  | int (i : Int)
  | null
deriving DecidableEq

/-- `None`-aware injection of an optional string attribute into a cell. -/
def cellOfOpt : Option String → CellValue
  | some s => .str s
  | none => .null

/-- Python dict assignment `d[k] = v` on an association list with unique keys:
replace the value in place if the key exists, otherwise append at the end. -/
def dictSet : List (String × CellValue) → String → CellValue → List (String × CellValue)
  | [], k, v => [(k, v)]
  | (k', v') :: rest, k, v =>
    if k' = k then (k, v) :: rest else (k', v') :: dictSet rest k v

/-- Python dict lookup `d.get(k)`. -/
def dictGet : List (String × CellValue) → String → Option CellValue
  | [], _ => none
  | (k', v') :: rest, k => if k' = k then some v' else dictGet rest k

/-- The keys of a dict, i.e. the columns the row contributes to `pd.DataFrame`. -/
def dictKeys (d : List (String × CellValue)) : List String := d.map (fun p => p.1)

/-- Python's `s.split("_")[0]`: the prefix of `s` before its first underscore. -/
def split_head (s : String) : String :=
  String.mk (s.data.takeWhile (fun c => c != '_'))

/-- The event-category derivation inlined in `_build_order_data`
(utils.py 103-107): the sub-status itself when `"_" not in sub_status`,
otherwise `sub_status.split("_")[0]`. -/
def derive_category (s : String) : String :=
  if '_' ∈ s.data then split_head s else s

/-- The base seven entries of the order dict (utils.py 88-96). -/
def base_order_data (p : Payload) : List (String × CellValue) :=
  [("tracking_number", .str p.number),
   ("carrier_name", .str p.carrier_name),
   ("shipping_country", .str p.shipping_country),
   ("recipient_country", .str p.recipient_country),
   ("latest_status", cellOfOpt p.latest_status),
   ("days_after_order", .int p.days_after_order),
   ("days_of_transit", .int p.days_of_transit)]

/-- One iteration of the event loop of `_build_order_data` (utils.py 101-107):
events carrying both `sub_status` and `time_raw` are written to the dict under
`events.<derived category>`, so a later event with the same category wins. -/
def record_event (d : List (String × CellValue)) (e : TrackEvent) : List (String × CellValue) :=
  match e.sub_status, e.time_raw_date with
  | some ss, some dt => dictSet d ("events." ++ derive_category ss) (.str dt)
  | _, _ => d

/-- `API17Track._build_order_data` (utils.py 85-109): the base fields, then the
events folded in payload order (the `events` attribute may be absent or None). -/
def build_order_data (p : Payload) : List (String × CellValue) :=
  match p.events with
  | none => base_order_data p
  | some evs => evs.foldl record_event (base_order_data p)

/-- `API17Track._build_request` (utils.py 35-55), given the provider's response
to one call: returns the first accepted item; for a rejection it raises a plain
`Exception` when the code is already-registered / needs-registration, and
`API17TrackError` for the quota code or any other code (`case QUOTA_LIMIT | _`). -/
def build_request (resp : ProviderResponse) : Except PyError Payload :=
  match resp with
  | .accepted p => .ok p
  | .rejected err =>
    if err.code = TRACKING_REGISTERED ∨ err.code = TRACKING_NEED_REGISTER then
      .error (.plainExc err.message)
    else
      .error (.apiError err.code err.message)

/-- `API17Track.retrieve_package_data` (utils.py 73-83): one `gettrackinfo`
call; any exception is re-raised as `raise Exception(e)`, i.e. re-wrapped into
a plain `Exception` whose message is `str(e)` (the `API17TrackError` type is
lost here); on success the order dict is built. -/
def retrieve_package_data (resp : ProviderResponse) :
    Except PyError (List (String × CellValue)) :=
  match build_request resp with
  | .error e => .error (.plainExc (pyMessage e))
  | .ok p => .ok (build_order_data p)

/-- `API17Track.register_package` (utils.py 57-71): one `register` call whose
exceptions propagate unchanged, then `retrieve_package_data` for the re-fetch. -/
def register_package (regResp refetchResp : ProviderResponse) :
    Except PyError (List (String × CellValue)) :=
  match build_request regResp with
  | .error e => .error e
  | .ok _ => retrieve_package_data refetchResp

/-- Provider behaviour for one run: the response to the first `gettrackinfo`
call, to the `register` call, and to the re-fetch after registration, per
tracking number. -/
structure ProviderOracle where
  fetch1 : String → ProviderResponse
  register : String → ProviderResponse
  fetch2 : String → ProviderResponse

/-- Outcome of one iteration of the batch loop for one tracking number. -/
inductive ItemResult where
  | success (record : List (String × CellValue)) (registered : Bool)
  | skipped (quota : Bool)
  | aborted (e : PyError)
deriving DecidableEq

/-- One iteration of the batch loop in `processing` (main.py 40-61): try
`retrieve_package_data`; on any `Exception` try `register_package`; the inner
`except API17TrackError` skips the item (counting quota when
`retry_e.code.code == QUOTA_LIMIT`); any other exception escapes the loop. -/
def resolve_item (o : ProviderOracle) (n : String) : ItemResult :=
  match retrieve_package_data (o.fetch1 n) with
  | .ok rec => .success rec false
  | .error _ =>
    match register_package (o.register n) (o.fetch2 n) with
    | .ok rec => .success rec true
    | .error (.apiError code _) => .skipped (code == QUOTA_LIMIT)
    | .error e => .aborted e

/-- The run counters of main.py 36-38 (`registered_count`, `skipped_count`,
`quota_exceeded_count`). -/
structure RunSummary where
  registered_count : Nat
  skipped_count : Nat
  quota_exceeded_count : Nat
deriving DecidableEq

/-- The body of the batch loop of `processing` (main.py 40-61), threading the
`output` list and the counters; an exception that escapes the per-item
handlers propagates, losing the output and the counters. -/
def run_items (o : ProviderOracle) :
    List String → List (List (String × CellValue)) → RunSummary →
    Except PyError (List (List (String × CellValue)) × RunSummary)
  | [], acc, s => .ok (acc, s)
  | n :: rest, acc, s =>
    match resolve_item o n with
    | .success rec false => run_items o rest (acc ++ [rec]) s
    | .success rec true =>
        run_items o rest (acc ++ [rec])
          { s with registered_count := s.registered_count + 1 }
    | .skipped q =>
        run_items o rest acc
          { s with skipped_count := s.skipped_count + 1,
                   quota_exceeded_count := s.quota_exceeded_count + (if q then 1 else 0) }
    | .aborted e => .error e

/-- The tracking-retrieval batch of `processing` (main.py 36-61): counters
start at zero and the loop runs over `tracking_numbers[:400]`. -/
def processing (o : ProviderOracle) (tracking_numbers : List String) :
    Except PyError (List (List (String × CellValue)) × RunSummary) :=
  run_items o (tracking_numbers.take 400) [] ⟨0, 0, 0⟩

/-- The provider calls `(endpoint, tracking number)` issued while processing
one item: always the first `gettrackinfo`; a `register` call when the first
fetch raised; and the re-fetch `gettrackinfo` when the register call
succeeded. -/
def item_calls (o : ProviderOracle) (n : String) : List (String × String) :=
  ("gettrackinfo", n) ::
    match retrieve_package_data (o.fetch1 n) with
    | .ok _ => []
    | .error _ =>
      ("register", n) ::
        match build_request (o.register n) with
        | .error _ => []
        | .ok _ => [("gettrackinfo", n)]

/-- All provider calls issued by the batch loop; an uncaught exception stops
the loop, so later numbers generate no calls. -/
def batch_calls (o : ProviderOracle) : List String → List (String × String)
  | [] => []
  | n :: rest =>
    item_calls o n ++
      match resolve_item o n with
      | .aborted _ => []
      | _ => batch_calls o rest

/-- The provider calls of a whole `processing` run (cap included). -/
def processing_calls (o : ProviderOracle) (tracking_numbers : List String) :
    List (String × String) :=
  batch_calls o (tracking_numbers.take 400)

/-- One line of the Shopify export after `process_file` (utils.py 342-356). -/
structure OrderRow where
  order_id : String
  product_name : String
  qty : Int
  country : String
  order_created_at : Option String
  tracking_number : String
deriving DecidableEq

/-- Case-sensitive substring test: pandas `Series.str.contains` with the
regex-alternative pattern of main.py 103-107, whose three alternatives are
plain literals. -/
def str_contains_sub (s pat : String) : Bool := decide (pat.data <:+: s.data)

/-- The failure-status filter of main.py 103-107. -/
def is_failure_status (s : String) : Bool :=
  str_contains_sub s "DeliveryFailure" || str_contains_sub s "NotFound" ||
    str_contains_sub s "Exception"

/-- `pd.merge(data, df, how="left", on="tracking_number")` (main.py 99): each
order row paired with every record whose `tracking_number` value equals the
order's; an order with no matching record yields one row whose record side is
all-NaN (`none`). -/
def merge_left (orders : List OrderRow) (records : List (List (String × CellValue))) :
    List (OrderRow × Option (List (String × CellValue))) :=
  orders.flatMap (fun o =>
    let ms := records.filter
      (fun r => decide (dictGet r "tracking_number" = some (.str o.tracking_number)))
    if ms.isEmpty then [(o, none)] else ms.map (fun r => (o, some r)))

/-- The reconciliation of main.py 99-107: the left join, then dropping rows
with a null `latest_status` (which covers every non-matched order), then
dropping rows whose status contains one of the three failure substrings. -/
def reconcile (orders : List OrderRow) (records : List (List (String × CellValue))) :
    List (OrderRow × List (String × CellValue)) :=
  (merge_left orders records).filterMap (fun pr =>
    match pr.2 with
    | none => none
    | some r =>
      match dictGet r "latest_status" with
      | some (.str s) => if is_failure_status s then none else some (pr.1, r)
      | _ => none)

/-- A calendar date. -/
structure Date where
  year : Nat
  month : Nat
  day : Nat
deriving DecidableEq

/-- Gregorian leap-year test. -/
def isLeap (y : Nat) : Bool := (y % 4 == 0 && y % 100 != 0) || y % 400 == 0

/-- Cumulative day count before a month in a non-leap year. -/
def daysBeforeMonth (m : Nat) : Nat :=
  [0, 0, 31, 59, 90, 120, 151, 181, 212, 243, 273, 304, 334].getD m 0

/-- Ordinal of a Gregorian date (0001-01-01 is day 1); models the day
arithmetic behind pandas `Timestamp` subtraction (`.days`). -/
def toDays (d : Date) : Nat :=
  let y := d.year - 1
  365 * y + y / 4 - y / 100 + y / 400 + daysBeforeMonth d.month
    + (if 2 < d.month && isLeap d.year then 1 else 0) + d.day

/-- Split a character list on a separator (Python `str.split`). -/
def splitOnChar (c : Char) : List Char → List (List Char)
  | [] => [[]]
  | a :: t =>
    match splitOnChar c t with
    | [] => [[a]]
    | h :: r => if a = c then [] :: h :: r else (a :: h) :: r

/-- Decimal digit value of a character, when it is a digit. -/
def charDigit (c : Char) : Option Nat :=
  if '0' ≤ c ∧ c ≤ '9' then some (c.toNat - '0'.toNat) else none

/-- Parse a non-empty all-digit character list as a natural number. -/
def parseNatChars (l : List Char) : Option Nat :=
  if l.isEmpty then none
  else
    l.foldl (fun acc c =>
      match acc, charDigit c with
      | some n, some d => some (10 * n + d)
      | _, _ => none) (some 0)

/-- A date from components, validated to plausible ranges. -/
def mkValidDate (y m d : Nat) : Option Date :=
  if 1 ≤ m ∧ m ≤ 12 ∧ 1 ≤ d ∧ d ≤ 31 then some ⟨y, m, d⟩ else none

/-- Modelled behaviour of the pandas date parser on the two date shapes this
pipeline produces: ISO `YYYY-MM-DD` (the provider event dates) and slash dates
read day-first or month-first according to `dayfirst` (the order-export
dates). `none` when the string matches neither shape. -/
def parseDate (dayfirst : Bool) (s : String) : Option Date :=
  match (splitOnChar '-' s.data).map parseNatChars with
  | [some y, some m, some d] => mkValidDate y m d
  | _ =>
    match (splitOnChar '/' s.data).map parseNatChars with
    | [some a, some b, some y] =>
      if dayfirst then mkValidDate y b a else mkValidDate y a b
    | _ => none

/-- `pd.to_datetime` on one cell (utils.py 369-372): a missing value (NaN)
yields NaT (`.ok none`); a present but unparseable string raises `ValueError`
(the default `errors="raise"`); otherwise the parsed date. -/
def to_datetime (dayfirst : Bool) : Option String → Except String (Option Date)
  | none => .ok none
  | some s =>
    match parseDate dayfirst s with
    | some d => .ok (some d)
    | none => .error s

/-- `(a - b).days` with NaT propagation: NaT on either side gives nan. -/
def days_sub : Option Date → Option Date → Option Int
  | some a, some b => some ((toDays a : Int) - (toDays b : Int))
  | _, _ => none

/-- Numeric `+` with nan propagation (utils.py 376). -/
def nan_add : Option Int → Option Int → Option Int
  | some a, some b => some (a + b)
  | _, _ => none

/-- Zero-pad a number to two digits. -/
def pad2 (n : Nat) : String := if n < 10 then "0" ++ toString n else toString n

/-- Zero-pad a number to four digits. -/
def pad4 (n : Nat) : String :=
  if n < 10 then "000" ++ toString n
  else if n < 100 then "00" ++ toString n
  else if n < 1000 then "0" ++ toString n
  else toString n

/-- `strftime("%Y-%m-%d")` (utils.py 378-389). -/
def strf_ymd (d : Date) : String :=
  pad4 d.year ++ "-" ++ pad2 d.month ++ "-" ++ pad2 d.day

/-- Re-emission of a timestamp: formatted when present, null stays null. -/
def fmt_or_null : Option Date → Option String
  | some d => some (strf_ymd d)
  | none => none

/-- The four timestamp columns `get_shipping_metrics` reads from a row. -/
structure MetricsRow where
  order_created_at : Option String
  info_received_at : Option String
  in_transit_at : Option String
  delivered_at : Option String
deriving DecidableEq

/-- The tuple `get_shipping_metrics` returns (utils.py 391-399). -/
structure ShippingMetrics where
  processing_time : Option Int
  shipping_time : Option Int
  total_time : Option Int
  order_created_at : Option String
  info_received_at : Option String
  in_transit_at : Option String
  delivered_at : Option String
deriving DecidableEq

/-- `get_shipping_metrics` (utils.py 359-399): parse the four timestamps (the
order date with `dayfirst=True`, the rest with the default parser, in source
order), compute whole-day differences with NaT propagation, and re-emit the
timestamps as `YYYY-MM-DD` strings. -/
def get_shipping_metrics (row : MetricsRow) : Except String ShippingMetrics :=
  match to_datetime true row.order_created_at with
  | .error e => .error e
  | .ok order_created_at =>
  match to_datetime false row.in_transit_at with
  | .error e => .error e
  | .ok in_transit_at =>
  match to_datetime false row.delivered_at with
  | .error e => .error e
  | .ok delivered_at =>
  match to_datetime false row.info_received_at with
  | .error e => .error e
  | .ok info_received_at =>
    let proc := days_sub in_transit_at order_created_at
    let ship := days_sub delivered_at in_transit_at
    .ok { processing_time := proc
          shipping_time := ship
          total_time := nan_add proc ship
          order_created_at := fmt_or_null order_created_at
          info_received_at := fmt_or_null info_received_at
          in_transit_at := fmt_or_null in_transit_at
          delivered_at := fmt_or_null delivered_at }

/-- The ten columns `processing` selects unconditionally (main.py 77-90). -/
def selected_columns : List String :=
  ["tracking_number", "carrier_name", "shipping_country", "recipient_country",
   "latest_status", "days_after_order", "days_of_transit",
   "events.InTransit", "events.Delivered", "events.InfoReceived"]

/-- Whether `pd.DataFrame(output)` has a column: the frame's columns are the
union of the row dicts' keys. -/
def frame_has_column (output : List (List (String × CellValue))) (c : String) : Bool :=
  output.any (fun r => (dictKeys r).contains c)

/-- The unconditional column selection `df[[...]]` of main.py 77-90: succeeds
exactly when every selected column exists in the frame, and otherwise raises a
`KeyError` that aborts the run. -/
def select_columns_ok (output : List (List (String × CellValue))) : Bool :=
  selected_columns.all (frame_has_column output)

/-- Spec wording (§4.2): the event category is the substring of the sub-status
before the first underscore, or the whole sub-status when it has none. -/
def specCategory (s : String) : String :=
  String.mk (s.data.takeWhile (fun c => c != '_'))

/-- Spec wording (§4.2): one step of "record `events.<category> = event date`,
overwriting on category collision with the latest-seen event". -/
def spec_event_step (cat : String) (acc : Option String) (e : TrackEvent) : Option String :=
  match e.sub_status, e.time_raw_date with
  | some ss, some dt => if specCategory ss = cat then some dt else acc
  | _, _ => acc

/-- Spec wording: the date of the latest-seen event (payload order) that has
both fields and whose derived category is `cat`. -/
def specEventsLookup (evs : List TrackEvent) (cat : String) : Option String :=
  evs.foldl (spec_event_step cat) none

/-- A fixed sample payload used in concrete scenarios. -/
def samplePayload (n : String) (evs : Option (List TrackEvent)) : Payload :=
  { number := n, carrier_name := "YunExpress", shipping_country := "CN",
    recipient_country := "US", latest_status := some "InTransit",
    days_after_order := 3, days_of_transit := 2, events := evs }

/-- Oracle for a number whose first fetch is rejected with a generic provider
error (code -1), while register and the re-fetch succeed. -/
def oracle_server_error : ProviderOracle :=
  { fetch1 := fun _ => .rejected ⟨-1, "server error"⟩
    register := fun n => .accepted (samplePayload n none)
    fetch2 := fun n => .accepted (samplePayload n none) }

/-- Oracle for a number whose first fetch demands registration, whose register
call is accepted, and whose re-fetch is rejected with the quota code. -/
def oracle_refetch_quota : ProviderOracle :=
  { fetch1 := fun _ => .rejected ⟨TRACKING_NEED_REGISTER, "needs registration"⟩
    register := fun n => .accepted (samplePayload n none)
    fetch2 := fun _ => .rejected ⟨QUOTA_LIMIT, "Quota limit reached"⟩ }

/-- Oracle that rejects every call with the quota code. -/
def oracle_all_quota : ProviderOracle :=
  { fetch1 := fun _ => .rejected ⟨QUOTA_LIMIT, "quota"⟩
    register := fun _ => .rejected ⟨QUOTA_LIMIT, "quota"⟩
    fetch2 := fun _ => .rejected ⟨QUOTA_LIMIT, "quota"⟩ }

/-- Oracle that demands registration on the first fetch and then accepts. -/
def oracle_need_register : ProviderOracle :=
  { fetch1 := fun _ => .rejected ⟨TRACKING_NEED_REGISTER, "needs registration"⟩
    register := fun n => .accepted (samplePayload n none)
    fetch2 := fun n => .accepted (samplePayload n none) }

/-- Oracle that accepts every call. -/
def oracle_accept_all : ProviderOracle :=
  { fetch1 := fun n => .accepted (samplePayload n none)
    register := fun n => .accepted (samplePayload n none)
    fetch2 := fun n => .accepted (samplePayload n none) }

/-- A concrete event list exercising all three selected event categories. -/
def events3 : List TrackEvent :=
  [⟨some "InfoReceived", some "2024-03-02"⟩,
   ⟨some "InTransit_PickedUp", some "2024-03-05"⟩,
   ⟨some "Delivered_Arrived", some "2024-03-09"⟩]

/-- A payload carrying `events3`. -/
def payload_full : Payload := samplePayload "W1" (some events3)

/-- 500 pairwise distinct tracking numbers (`"a"` repeated `i` times). -/
def w500 : List String := (List.range 500).map (fun i => String.mk (List.replicate i 'a'))

/-- The metrics row of the spec's worked numeric example, with an
`info_received_at` added. -/
def row_c7 : MetricsRow :=
  { order_created_at := some "01/03/2024", info_received_at := some "2024-03-02",
    in_transit_at := some "2024-03-05", delivered_at := some "2024-03-09" }

/-- A row whose `delivered_at` is present but unparseable. -/
def row_bad_delivered : MetricsRow :=
  { order_created_at := some "01/03/2024", info_received_at := none,
    in_transit_at := some "2024-03-05", delivered_at := some "notadate" }

/-- A row whose `delivered_at` is missing. -/
def row_missing_delivered : MetricsRow :=
  { order_created_at := some "01/03/2024", info_received_at := none,
    in_transit_at := some "2024-03-05", delivered_at := none }

/-! Helper lemmas about the python-dict model. -/

theorem dictKeys_cons (p : String × CellValue) (t : List (String × CellValue)) :
    dictKeys (p :: t) = p.1 :: dictKeys t := rfl

theorem dictGet_dictSet (d : List (String × CellValue)) (k : String) (v : CellValue)
    (k' : String) :
    dictGet (dictSet d k v) k' = if k = k' then some v else dictGet d k' := by
  induction d with
  | nil => simp [dictSet, dictGet]
  | cons a t ih =>
    obtain ⟨ka, va⟩ := a
    by_cases hk : ka = k
    · subst hk
      simp only [dictSet, if_pos rfl, dictGet]
      by_cases h2 : ka = k' <;> simp [h2]
    · simp only [dictSet, if_neg hk, dictGet]
      by_cases hk' : ka = k'
      · subst hk'
        have hkk : ¬ (k = ka) := fun h => hk h.symm
        simp [hkk]
      · simp [hk', ih]

theorem dictGet_eq_none_iff (d : List (String × CellValue)) (k : String) :
    dictGet d k = none ↔ k ∉ dictKeys d := by
  induction d with
  | nil => simp [dictGet, dictKeys]
  | cons p t ih =>
    obtain ⟨ka, va⟩ := p
    by_cases h : ka = k
    · subst h
      simp [dictGet, dictKeys_cons]
    · have hne : ¬ (k = ka) := fun hh => h hh.symm
      simp only [dictGet, if_neg h, ih, dictKeys_cons, List.mem_cons, not_or]
      constructor
      · intro hk
        exact ⟨hne, hk⟩
      · rintro ⟨-, hk⟩
        exact hk

theorem mem_dictKeys_iff_dictGet (d : List (String × CellValue)) (k : String) :
    k ∈ dictKeys d ↔ dictGet d k ≠ none := by
  rw [ne_eq, dictGet_eq_none_iff]
  simp

theorem mem_dictKeys_dictSet_of_mem (d : List (String × CellValue)) (k : String)
    (v : CellValue) (a : String) (h : a ∈ dictKeys d) :
    a ∈ dictKeys (dictSet d k v) := by
  rw [mem_dictKeys_iff_dictGet] at h ⊢
  rw [dictGet_dictSet]
  by_cases hk : k = a
  · simp [hk]
  · simpa [hk] using h

/-! Helper lemmas about the event-category keys. -/

theorem events_key_head (cat : String) : ("events." ++ cat).data.head? = some 'e' := by
  rw [String.data_append]
  rfl

theorem base_key_ne_events (cat k : String) (h : k.data.head? ≠ some 'e') :
    ¬ (k = "events." ++ cat) :=
  fun he => h (he ▸ events_key_head cat)

theorem dictGet_base_events (p : Payload) (cat : String) :
    dictGet (base_order_data p) ("events." ++ cat) = none := by
  have h1 := base_key_ne_events cat "tracking_number" (by decide)
  have h2 := base_key_ne_events cat "carrier_name" (by decide)
  have h3 := base_key_ne_events cat "shipping_country" (by decide)
  have h4 := base_key_ne_events cat "recipient_country" (by decide)
  have h5 := base_key_ne_events cat "latest_status" (by decide)
  have h6 := base_key_ne_events cat "days_after_order" (by decide)
  have h7 := base_key_ne_events cat "days_of_transit" (by decide)
  simp [base_order_data, dictGet, h1, h2, h3, h4, h5, h6, h7]

theorem string_append_left_cancel {s a b : String} (h : s ++ a = s ++ b) : a = b := by
  apply String.ext
  have hd := congrArg String.data h
  rw [String.data_append, String.data_append] at hd
  exact List.append_cancel_left hd

theorem takeWhile_no_underscore (l : List Char) (h : '_' ∉ l) :
    l.takeWhile (fun c => c != '_') = l :=
  List.takeWhile_eq_self_iff.mpr (fun c hc => by
    rw [bne_iff_ne, ne_eq]
    exact fun hh => h (hh ▸ hc))

theorem derive_category_eq_spec (s : String) : derive_category s = specCategory s := by
  unfold derive_category specCategory split_head
  by_cases h : '_' ∈ s.data
  · simp [h]
  · rw [if_neg h, takeWhile_no_underscore s.data h]

theorem dictGet_foldl_record_event (evs : List TrackEvent) (cat : String) :
    ∀ (d : List (String × CellValue)) (a : Option String),
      dictGet d ("events." ++ cat) = a.map CellValue.str →
      dictGet (evs.foldl record_event d) ("events." ++ cat) =
        (evs.foldl (spec_event_step cat) a).map CellValue.str := by
  induction evs with
  | nil => intro d a h; simpa using h
  | cons e t ih =>
    intro d a h
    simp only [List.foldl_cons]
    apply ih
    unfold record_event spec_event_step
    cases hss : e.sub_status with
    | none => simpa using h
    | some ss =>
      cases hdt : e.time_raw_date with
      | none => simpa using h
      | some dt =>
        simp only [dictGet_dictSet, derive_category_eq_spec]
        by_cases hc : specCategory ss = cat
        · rw [hc]
          simp
        · have hne : ¬ ("events." ++ specCategory ss = "events." ++ cat) :=
            fun hh => hc (string_append_left_cancel hh)
          rw [if_neg hne, if_neg hc, h]

theorem foldl_spec_event_ne_none (cat : String) (evs : List TrackEvent) :
    ∀ (a : Option String),
      evs.foldl (spec_event_step cat) a ≠ none ↔
        (a ≠ none ∨ ∃ e ∈ evs, ∃ ss dt, e.sub_status = some ss ∧
          e.time_raw_date = some dt ∧ specCategory ss = cat) := by
  induction evs with
  | nil => simp
  | cons e t ih =>
    intro a
    simp only [List.foldl_cons]
    rw [ih, List.exists_mem_cons_iff]
    rcases hss : e.sub_status with _ | ss
    · have hstep : spec_event_step cat a e = a := by simp [spec_event_step, hss]
      have hPe : ¬ ∃ ss dt, e.sub_status = some ss ∧ e.time_raw_date = some dt ∧
          specCategory ss = cat := by
        rintro ⟨ss, dt, hss', -, -⟩
        rw [hss] at hss'
        cases hss'
      rw [hstep]
      tauto
    · rcases hdt : e.time_raw_date with _ | dt
      · have hstep : spec_event_step cat a e = a := by simp [spec_event_step, hss, hdt]
        have hPe : ¬ ∃ ss dt, e.sub_status = some ss ∧ e.time_raw_date = some dt ∧
            specCategory ss = cat := by
          rintro ⟨ss', dt', -, hdt', -⟩
          rw [hdt] at hdt'
          cases hdt'
        rw [hstep]
        tauto
      · by_cases hc : specCategory ss = cat
        · have hstep : spec_event_step cat a e = some dt := by
            simp [spec_event_step, hss, hdt, hc]
          rw [hstep]
          simp [hss, hdt, hc]
        · have hstep : spec_event_step cat a e = a := by
            simp [spec_event_step, hss, hdt, hc]
          have hPe : ¬ ∃ ss' dt', e.sub_status = some ss' ∧ e.time_raw_date = some dt' ∧
              specCategory ss' = cat := by
            rintro ⟨ss', dt', hss', -, hc'⟩
            rw [hss] at hss'
            cases hss'
            exact hc hc'
          rw [hstep]
          constructor
          · rintro (ha | hx)
            · exact Or.inl ha
            · exact Or.inr (Or.inr hx)
          · rintro (ha | hPe' | hx)
            · exact Or.inl ha
            · obtain ⟨ss', dt', h1, h2, hc'⟩ := hPe'
              cases h1
              exact absurd hc' hc
            · exact Or.inr hx

/-! Main claim theorems. -/

/-- C5: for every accepted payload, the order dict maps each event (that has
both a sub-status and a raw date) under `events.<category>` where the category
is the substring of the sub-status before the first underscore (the whole
sub-status when it has none), with the latest-seen event in payload order
winning on category collision; in particular `"Delivered_PickedUp"` derives
`"Delivered"` and `"InfoReceived"` stays `"InfoReceived"`. -/
theorem claim_C5 (p : Payload) (evs : List TrackEvent) (h : p.events = some evs)
    (cat : String) :
    dictGet (build_order_data p) ("events." ++ cat) =
      (specEventsLookup evs cat).map CellValue.str
    ∧ specCategory "Delivered_PickedUp" = "Delivered"
    ∧ specCategory "InfoReceived" = "InfoReceived" := by
  refine ⟨?_, by decide, by decide⟩
  unfold build_order_data specEventsLookup
  rw [h]
  exact dictGet_foldl_record_event evs cat (base_order_data p) none
    (by simpa using dictGet_base_events p cat)

/-- Witness for C5 at a concrete payload whose events exercise both shapes. -/
theorem claim_C5_witness :
    (dictGet (build_order_data payload_full) ("events." ++ "Delivered") =
      (specEventsLookup events3 "Delivered").map CellValue.str
    ∧ specCategory "Delivered_PickedUp" = "Delivered"
    ∧ specCategory "InfoReceived" = "InfoReceived") :=
  claim_C5 payload_full events3 rfl "Delivered"

/-- C7: the spec's worked numeric example: order created 01/03/2024 (day
first), in transit 2024-03-05, delivered 2024-03-09 give processing 4,
shipping 4 and total 8 whole days, and the timestamps are re-emitted in
`YYYY-MM-DD` form. -/
theorem claim_C7 :
    get_shipping_metrics row_c7 =
      .ok { processing_time := some 4, shipping_time := some 4, total_time := some 8,
            order_created_at := some "2024-03-01", info_received_at := some "2024-03-02",
            in_transit_at := some "2024-03-05", delivered_at := some "2024-03-09" } := by
  rfl

theorem retrieve_error_plain (resp : ProviderResponse) (e : PyError)
    (h : retrieve_package_data resp = .error e) : ∃ msg, e = .plainExc msg := by
  unfold retrieve_package_data at h
  cases hb : build_request resp with
  | ok p =>
    rw [hb] at h
    cases h
  | error e' =>
    rw [hb] at h
    injection h with h2
    exact ⟨pyMessage e', h2.symm⟩

/-- C1 (amended): for every tracking number whose first fetch yields a
`ProviderError` (an `API17TrackError` rejection, quota included), the resolver
does not go directly to Failed: it submits a register request for that number,
and it reaches the skipped (Failed) state only when the register call itself
is then rejected with an `API17TrackError`. -/
theorem claim_C1 (o : ProviderOracle) (n : String) (c : Int) (m : String)
    (h : build_request (o.fetch1 n) = .error (.apiError c m)) :
    ("register", n) ∈ item_calls o n
    ∧ (∀ q, resolve_item o n = .skipped q →
        ∃ c2 m2, build_request (o.register n) = .error (.apiError c2 m2)) := by
  have hr : retrieve_package_data (o.fetch1 n) = .error (.plainExc m) := by
    unfold retrieve_package_data
    rw [h]
    rfl
  constructor
  · unfold item_calls
    rw [hr]
    cases build_request (o.register n) <;> simp
  · intro q hq
    unfold resolve_item at hq
    rw [hr] at hq
    cases hb : build_request (o.register n) with
    | error e =>
      cases e with
      | apiError c2 m2 => exact ⟨c2, m2, rfl⟩
      | plainExc msg =>
        have hreg : register_package (o.register n) (o.fetch2 n) = .error (.plainExc msg) := by
          unfold register_package
          rw [hb]
        rw [hreg] at hq
        simp at hq
    | ok p =>
      have hreg : register_package (o.register n) (o.fetch2 n) =
          retrieve_package_data (o.fetch2 n) := by
        unfold register_package
        rw [hb]
      rw [hreg] at hq
      cases hr2 : retrieve_package_data (o.fetch2 n) with
      | ok rec =>
        rw [hr2] at hq
        simp at hq
      | error e2 =>
        obtain ⟨msg2, rfl⟩ := retrieve_error_plain _ _ hr2
        rw [hr2] at hq
        simp at hq

/-- Witness for C1 at the concrete server-error oracle. -/
theorem claim_C1_witness :
    ("register", "N1") ∈ item_calls oracle_server_error "N1"
    ∧ (∀ q, resolve_item oracle_server_error "N1" = .skipped q →
        ∃ c2 m2, build_request (oracle_server_error.register "N1") =
          .error (.apiError c2 m2)) :=
  claim_C1 oracle_server_error "N1" (-1) "server error" (by rfl)

/-- C1 counterexample: a number whose first fetch is rejected with a generic
provider error (`ProviderError`, not needs-registration) does get a register
request submitted for it, and — register and re-fetch succeeding — resolves
successfully with `registered_count` 1, instead of going directly to Failed
with no registration attempted. -/
theorem claim_C1_counterexample :
    ("register", "N1") ∈ processing_calls oracle_server_error ["N1"]
    ∧ processing oracle_server_error ["N1"] =
        .ok ([build_order_data (samplePayload "N1" none)], ⟨1, 0, 0⟩) := by
  constructor
  · decide
  · rfl

/-- C2: evaluation of the batch loop at the failing input. One tracking number
whose first fetch demands registration, whose register call is accepted, and
whose re-fetch is rejected with the quota code: `retrieve_package_data`
re-wraps the re-fetch `API17TrackError` as a plain `Exception`
(`raise Exception(e)`, utils.py 80-81), the `except API17TrackError` handler
(main.py 52) misses it, and the whole batch aborts with no summary — contrary
to the propagation policy that per-item failures never abort the batch. -/
theorem claim_C2 :
    processing oracle_refetch_quota ["T1"] = .error (.plainExc "Quota limit reached") := rfl

/-- C3: for a tracking number all of whose provider calls are rejected with
the quota code, the loop iteration increments `skipped_count` and
`quota_exceeded_count` by exactly 1 each, appends no record to the output,
and issues exactly two calls for the number (the fetch and the register —
no further retries within the run). -/
theorem claim_C3 (o : ProviderOracle) (n : String) (rest : List String)
    (acc : List (List (String × CellValue))) (s : RunSummary)
    (e1 e2 e3 : ProviderErrorInfo)
    (h1 : o.fetch1 n = .rejected e1) (hc1 : e1.code = QUOTA_LIMIT)
    (h2 : o.register n = .rejected e2) (hc2 : e2.code = QUOTA_LIMIT)
    (h3 : o.fetch2 n = .rejected e3) (hc3 : e3.code = QUOTA_LIMIT) :
    run_items o (n :: rest) acc s =
      run_items o rest acc
        { s with skipped_count := s.skipped_count + 1,
                 quota_exceeded_count := s.quota_exceeded_count + 1 }
    ∧ item_calls o n = [("gettrackinfo", n), ("register", n)] := by
  have hb1 : build_request (o.fetch1 n) = .error (.apiError QUOTA_LIMIT e1.message) := by
    rw [h1]
    simp only [build_request]
    rw [hc1, if_neg (by decide)]
  have hr1 : retrieve_package_data (o.fetch1 n) = .error (.plainExc e1.message) := by
    unfold retrieve_package_data
    rw [hb1]
    rfl
  have hb2 : build_request (o.register n) = .error (.apiError QUOTA_LIMIT e2.message) := by
    rw [h2]
    simp only [build_request]
    rw [hc2, if_neg (by decide)]
  have hreg : register_package (o.register n) (o.fetch2 n) =
      .error (.apiError QUOTA_LIMIT e2.message) := by
    unfold register_package
    rw [hb2]
  have hri : resolve_item o n = .skipped true := by
    unfold resolve_item
    rw [hr1, hreg]
    norm_num
  constructor
  · simp [run_items, hri]
  · simp [item_calls, hr1, hb2]

/-- Witness for C3 at the all-quota oracle. -/
theorem claim_C3_witness :
    (run_items oracle_all_quota ["Q1"] [] ⟨0, 0, 0⟩ =
      run_items oracle_all_quota [] [] ⟨0, 1, 1⟩)
    ∧ item_calls oracle_all_quota "Q1" = [("gettrackinfo", "Q1"), ("register", "Q1")] :=
  claim_C3 oracle_all_quota "Q1" [] [] ⟨0, 0, 0⟩
    ⟨QUOTA_LIMIT, "quota"⟩ ⟨QUOTA_LIMIT, "quota"⟩ ⟨QUOTA_LIMIT, "quota"⟩
    rfl rfl rfl rfl rfl rfl

theorem run_items_all_accepted (o : ProviderOracle) (f : String → Payload)
    (hf : ∀ m, o.fetch1 m = .accepted (f m)) :
    ∀ (l : List String) (acc : List (List (String × CellValue))) (s : RunSummary),
      run_items o l acc s = .ok (acc ++ l.map (fun m => build_order_data (f m)), s) := by
  intro l
  induction l with
  | nil =>
    intro acc s
    simp [run_items]
  | cons n t ih =>
    intro acc s
    have hri : resolve_item o n = .success (build_order_data (f n)) false := by
      unfold resolve_item retrieve_package_data
      rw [hf n]
      rfl
    simp [run_items, hri, ih]

/-- C4: (a) a tracking number whose first fetch demands registration and whose
register and re-fetch both succeed resolves successfully — its record is
appended to the output — and increments `registered_count` by exactly 1;
(b) when every fetch is accepted immediately, every capped number resolves on
its first fetch and `registered_count` stays 0. -/
theorem claim_C4 :
    (∀ (o : ProviderOracle) (n : String) (rest : List String)
        (acc : List (List (String × CellValue))) (s : RunSummary)
        (e1 : ProviderErrorInfo) (p1 p2 : Payload),
      o.fetch1 n = .rejected e1 →
      (e1.code = TRACKING_REGISTERED ∨ e1.code = TRACKING_NEED_REGISTER) →
      o.register n = .accepted p1 →
      o.fetch2 n = .accepted p2 →
      run_items o (n :: rest) acc s =
        run_items o rest (acc ++ [build_order_data p2])
          { s with registered_count := s.registered_count + 1 })
    ∧ (∀ (o : ProviderOracle) (numbers : List String) (f : String → Payload),
        (∀ m, o.fetch1 m = .accepted (f m)) →
        processing o numbers =
          .ok ((numbers.take 400).map (fun m => build_order_data (f m)), ⟨0, 0, 0⟩)) := by
  constructor
  · intro o n rest acc s e1 p1 p2 h1 hcode h2 h3
    have hb1 : build_request (o.fetch1 n) = .error (.plainExc e1.message) := by
      rw [h1]
      simp only [build_request]
      rw [if_pos hcode]
    have hr1 : retrieve_package_data (o.fetch1 n) = .error (.plainExc e1.message) := by
      unfold retrieve_package_data
      rw [hb1]
      rfl
    have hreg : register_package (o.register n) (o.fetch2 n) = .ok (build_order_data p2) := by
      simp [register_package, build_request, retrieve_package_data, h2, h3]
    have hri : resolve_item o n = .success (build_order_data p2) true := by
      unfold resolve_item
      rw [hr1, hreg]
    simp [run_items, hri]
  · intro o numbers f hf
    unfold processing
    rw [run_items_all_accepted o f hf]
    simp

/-- Witness for C4: one register-then-succeed number, and a two-number batch
where every fetch is accepted. -/
theorem claim_C4_witness :
    (run_items oracle_need_register ["R1"] [] ⟨0, 0, 0⟩ =
      run_items oracle_need_register [] [build_order_data (samplePayload "R1" none)]
        ⟨1, 0, 0⟩)
    ∧ processing oracle_accept_all ["A1", "A2"] =
        .ok ([build_order_data (samplePayload "A1" none),
              build_order_data (samplePayload "A2" none)], ⟨0, 0, 0⟩) := by
  constructor
  · exact claim_C4.1 oracle_need_register "R1" [] [] ⟨0, 0, 0⟩
      ⟨TRACKING_NEED_REGISTER, "needs registration"⟩ (samplePayload "R1" none)
      (samplePayload "R1" none) rfl (Or.inr rfl) rfl rfl
  · exact claim_C4.2 oracle_accept_all ["A1", "A2"] (fun m => samplePayload m none)
      (fun m => rfl)

/-- C8 counterexample: a `delivered_at` that is present but unparseable makes
the metrics computation raise (`pd.to_datetime` defaults to `errors="raise"`)
instead of yielding null metrics without error. -/
theorem claim_C8_counterexample :
    get_shipping_metrics row_bad_delivered = .error "notadate" := rfl

/-- C8 (amended): for every row whose present timestamps parse, the metrics
computation does not raise (the row is kept), and any absent timestamp yields
a null result for every metric depending on it: a missing `order_created_at`
nulls `processing_time` and `total_time`, a missing `in_transit_at` nulls all
three durations, a missing `delivered_at` nulls `shipping_time` and
`total_time`, a missing `info_received_at` re-emits null — while
`processing_time` is still computed whenever `order_created_at` and
`in_transit_at` parsed to dates. A present but unparseable timestamp, however,
raises an error (see the counterexample). -/
theorem claim_C8 (row : MetricsRow) (oc it dv ir : Option Date)
    (h1 : to_datetime true row.order_created_at = .ok oc)
    (h2 : to_datetime false row.in_transit_at = .ok it)
    (h3 : to_datetime false row.delivered_at = .ok dv)
    (h4 : to_datetime false row.info_received_at = .ok ir) :
    get_shipping_metrics row =
      .ok { processing_time := days_sub it oc
            shipping_time := days_sub dv it
            total_time := nan_add (days_sub it oc) (days_sub dv it)
            order_created_at := fmt_or_null oc
            info_received_at := fmt_or_null ir
            in_transit_at := fmt_or_null it
            delivered_at := fmt_or_null dv }
    ∧ (row.order_created_at = none →
        days_sub it oc = none
          ∧ nan_add (days_sub it oc) (days_sub dv it) = none
          ∧ fmt_or_null oc = none)
    ∧ (row.in_transit_at = none →
        days_sub it oc = none ∧ days_sub dv it = none
          ∧ nan_add (days_sub it oc) (days_sub dv it) = none
          ∧ fmt_or_null it = none)
    ∧ (row.delivered_at = none →
        days_sub dv it = none
          ∧ nan_add (days_sub it oc) (days_sub dv it) = none
          ∧ fmt_or_null dv = none)
    ∧ (row.info_received_at = none → fmt_or_null ir = none)
    ∧ (∀ d1 d2, oc = some d1 → it = some d2 →
        days_sub it oc = some ((toDays d2 : Int) - (toDays d1 : Int))) := by
  refine ⟨?_, ?_, ?_, ?_, ?_, ?_⟩
  · unfold get_shipping_metrics
    rw [h1, h2, h3, h4]
  · intro habs
    rw [habs] at h1
    simp only [to_datetime] at h1
    cases h1
    cases it <;> cases dv <;> simp [days_sub, nan_add, fmt_or_null]
  · intro habs
    rw [habs] at h2
    simp only [to_datetime] at h2
    cases h2
    cases oc <;> cases dv <;> simp [days_sub, nan_add, fmt_or_null]
  · intro habs
    rw [habs] at h3
    simp only [to_datetime] at h3
    cases h3
    cases oc <;> cases it <;> simp [days_sub, nan_add, fmt_or_null]
  · intro habs
    rw [habs] at h4
    simp only [to_datetime] at h4
    cases h4
    rfl
  · intro d1 d2 hoc hit
    subst hoc
    subst hit
    rfl

/-- Witness for C8 at a concrete row with a missing `delivered_at`: no error
is raised, `shipping_time` and `total_time` are null, and `processing_time`
is still computed from the two present, parsed timestamps. -/
theorem claim_C8_witness :
    get_shipping_metrics row_missing_delivered =
      .ok { processing_time := some ((toDays ⟨2024, 3, 5⟩ : Int) - (toDays ⟨2024, 3, 1⟩ : Int)),
            shipping_time := none, total_time := none,
            order_created_at := some (strf_ymd ⟨2024, 3, 1⟩),
            info_received_at := none,
            in_transit_at := some (strf_ymd ⟨2024, 3, 5⟩),
            delivered_at := none } :=
  (claim_C8 row_missing_delivered (some ⟨2024, 3, 1⟩) (some ⟨2024, 3, 5⟩) none none
    rfl rfl rfl rfl).1

/-- C6: reconciliation joins orders onto records by tracking number, and the
kept rows are exactly the order rows that matched a record whose
`latest_status` is a string value containing (case-sensitively) none of
"DeliveryFailure", "NotFound", "Exception"; orders with no matching record
are dropped, and the status "InTransit" is kept. -/
theorem claim_C6 (orders : List OrderRow) (records : List (List (String × CellValue)))
    (o : OrderRow) (r : List (String × CellValue)) :
    ((o, r) ∈ reconcile orders records ↔
      o ∈ orders ∧ r ∈ records ∧
        dictGet r "tracking_number" = some (.str o.tracking_number) ∧
        ∃ s, dictGet r "latest_status" = some (.str s) ∧ is_failure_status s = false)
    ∧ is_failure_status "InTransit" = false := by
  refine ⟨?_, by decide⟩
  unfold reconcile merge_left
  rw [List.mem_filterMap]
  constructor
  · rintro ⟨⟨o2, r2⟩, hmem, hf⟩
    rw [List.mem_flatMap] at hmem
    obtain ⟨o3, ho3, hpr⟩ := hmem
    by_cases hemp : (records.filter (fun rr =>
        decide (dictGet rr "tracking_number" = some (.str o3.tracking_number)))).isEmpty = true
    · rw [if_pos hemp] at hpr
      rw [List.mem_singleton] at hpr
      obtain ⟨rfl, rfl⟩ := Prod.mk.injEq .. ▸ hpr
      simp at hf
    · rw [if_neg hemp] at hpr
      rw [List.mem_map] at hpr
      obtain ⟨rr, hrr, heq⟩ := hpr
      obtain ⟨hoo, hro⟩ := Prod.mk.injEq .. ▸ heq.symm
      subst hoo
      subst hro
      rw [List.mem_filter] at hrr
      obtain ⟨hrrec, htrack⟩ := hrr
      rw [decide_eq_true_eq] at htrack
      simp only [] at hf
      cases hs : dictGet rr "latest_status" with
      | none =>
        rw [hs] at hf
        cases hf
      | some cv =>
        rw [hs] at hf
        cases cv with
        | int i => cases hf
        | null => cases hf
        | str s =>
          by_cases hfail : is_failure_status s = true
          · simp [hfail] at hf
          · simp [hfail] at hf
            obtain ⟨rfl, rfl⟩ := hf
            exact ⟨ho3, hrrec, htrack,
              s, hs, Bool.eq_false_iff.mpr hfail⟩
  · rintro ⟨ho, hr, htrack, s, hs, hfail⟩
    refine ⟨(o, some r), ?_, ?_⟩
    · rw [List.mem_flatMap]
      refine ⟨o, ho, ?_⟩
      have hms : r ∈ records.filter (fun rr =>
          decide (dictGet rr "tracking_number" = some (.str o.tracking_number))) :=
        List.mem_filter.mpr ⟨hr, by simp [htrack]⟩
      have hne : ¬ ((records.filter (fun rr =>
          decide (dictGet rr "tracking_number" = some (.str o.tracking_number)))).isEmpty
            = true) := by
        intro hempty
        rw [List.isEmpty_iff] at hempty
        rw [hempty] at hms
        cases hms
      rw [if_neg hne]
      exact List.mem_map.mpr ⟨r, hms, rfl⟩
    · simp [hs, hfail]

theorem mem_item_calls (o : ProviderOracle) (m op n : String)
    (h : (op, n) ∈ item_calls o m) : n = m := by
  unfold item_calls at h
  cases hr : retrieve_package_data (o.fetch1 m) with
  | ok rec =>
    rw [hr] at h
    simp at h
    exact h.2
  | error e =>
    rw [hr] at h
    cases hb : build_request (o.register m) with
    | ok p =>
      rw [hb] at h
      simp at h
      rcases h with h | h | h <;> exact h.2
    | error e2 =>
      rw [hb] at h
      simp at h
      rcases h with h | h <;> exact h.2

theorem mem_batch_calls (o : ProviderOracle) (l : List String) (op n : String)
    (h : (op, n) ∈ batch_calls o l) : n ∈ l := by
  induction l with
  | nil => simp [batch_calls] at h
  | cons m t ih =>
    unfold batch_calls at h
    rw [List.mem_append] at h
    rcases h with h | h
    · rw [mem_item_calls o m op n h]
      exact List.mem_cons_self m t
    · cases hri : resolve_item o m with
      | success rec b =>
        rw [hri] at h
        exact List.mem_cons_of_mem m (ih h)
      | skipped q =>
        rw [hri] at h
        exact List.mem_cons_of_mem m (ih h)
      | aborted e =>
        rw [hri] at h
        simp at h

/-- C9: with 500 pairwise distinct tracking numbers and the cap of 400, every
provider call targets one of the first 400 numbers in iteration order, none of
the remaining 100 is ever submitted in any operation, exactly 400 numbers are
in the capped batch, and — when every fetch is accepted — exactly the first
400 are resolved, in order. -/
theorem claim_C9 (o : ProviderOracle) (numbers : List String)
    (hlen : numbers.length = 500) (hnd : numbers.Nodup) :
    (∀ op n, (op, n) ∈ processing_calls o numbers → n ∈ numbers.take 400)
    ∧ (∀ n ∈ numbers.drop 400, ∀ op, (op, n) ∉ processing_calls o numbers)
    ∧ (numbers.take 400).length = 400
    ∧ (∀ (f : String → Payload), (∀ m, o.fetch1 m = .accepted (f m)) →
        processing o numbers =
          .ok ((numbers.take 400).map (fun m => build_order_data (f m)), ⟨0, 0, 0⟩)) := by
  have htake : ∀ op n, (op, n) ∈ processing_calls o numbers → n ∈ numbers.take 400 :=
    fun op n h => mem_batch_calls o (numbers.take 400) op n h
  refine ⟨htake, ?_, ?_, ?_⟩
  · intro n hn op hmem
    exact (List.disjoint_take_drop hnd le_rfl) (htake op n hmem) hn
  · rw [List.length_take, hlen]
    decide
  · intro f hf
    unfold processing
    rw [run_items_all_accepted o f hf]
    simp

theorem w500_nodup : w500.Nodup := by
  unfold w500
  refine List.Nodup.map ?_ (List.nodup_range 500)
  intro i j hij
  have h2 := congrArg (fun s : String => s.data.length) hij
  simpa using h2

/-- Witness for C9 at the concrete 500-number batch and all-accepting oracle. -/
theorem claim_C9_witness :
    (∀ op n, (op, n) ∈ processing_calls oracle_accept_all w500 → n ∈ w500.take 400)
    ∧ (∀ n ∈ w500.drop 400, ∀ op, (op, n) ∉ processing_calls oracle_accept_all w500)
    ∧ (w500.take 400).length = 400
    ∧ (∀ (f : String → Payload), (∀ m, oracle_accept_all.fetch1 m = .accepted (f m)) →
        processing oracle_accept_all w500 =
          .ok ((w500.take 400).map (fun m => build_order_data (f m)), ⟨0, 0, 0⟩)) :=
  claim_C9 oracle_accept_all w500 (by simp [w500]) w500_nodup

theorem base_keys_eq (p : Payload) :
    dictKeys (base_order_data p) =
      ["tracking_number", "carrier_name", "shipping_country", "recipient_country",
       "latest_status", "days_after_order", "days_of_transit"] := rfl

theorem mem_dictKeys_foldl_record_event (evs : List TrackEvent) :
    ∀ (d : List (String × CellValue)) (a : String), a ∈ dictKeys d →
      a ∈ dictKeys (evs.foldl record_event d) := by
  induction evs with
  | nil =>
    intro d a h
    simpa using h
  | cons e t ih =>
    intro d a h
    simp only [List.foldl_cons]
    apply ih
    rcases hss : e.sub_status with _ | ss
    · simpa [record_event, hss] using h
    · rcases hdt : e.time_raw_date with _ | dt
      · simpa [record_event, hss, hdt] using h
      · have hre : record_event d e = dictSet d ("events." ++ derive_category ss) (.str dt) := by
          simp [record_event, hss, hdt]
        rw [hre]
        exact mem_dictKeys_dictSet_of_mem d _ _ a h

theorem base_mem_build_keys (p : Payload) (c : String)
    (hc : c ∈ dictKeys (base_order_data p)) : c ∈ dictKeys (build_order_data p) := by
  unfold build_order_data
  cases hev : p.events with
  | none => exact hc
  | some evs => exact mem_dictKeys_foldl_record_event evs (base_order_data p) c hc

theorem events_key_mem_build_keys (p : Payload) (cat : String) :
    ("events." ++ cat) ∈ dictKeys (build_order_data p) ↔
      ∃ evs, p.events = some evs ∧ ∃ e ∈ evs, ∃ ss dt,
        e.sub_status = some ss ∧ e.time_raw_date = some dt ∧ specCategory ss = cat := by
  rw [mem_dictKeys_iff_dictGet]
  cases hev : p.events with
  | none =>
    have hb : dictGet (build_order_data p) ("events." ++ cat) = none := by
      unfold build_order_data
      rw [hev]
      exact dictGet_base_events p cat
    rw [hb]
    simp [hev]
  | some evs =>
    have hb : dictGet (build_order_data p) ("events." ++ cat) =
        (specEventsLookup evs cat).map CellValue.str := by
      unfold build_order_data specEventsLookup
      rw [hev]
      exact dictGet_foldl_record_event evs cat (base_order_data p) none
        (by simpa using dictGet_base_events p cat)
    rw [hb]
    constructor
    · intro hne
      have hsl : specEventsLookup evs cat ≠ none := by
        intro hno
        apply hne
        rw [hno]
        rfl
      have h2 := (foldl_spec_event_ne_none cat evs none).mp hsl
      rcases h2 with h2 | h2
      · exact absurd rfl h2
      · exact ⟨evs, rfl, h2⟩
    · rintro ⟨evs', hevs', hex⟩
      injection hevs' with hevs'
      subst hevs'
      have hne := (foldl_spec_event_ne_none cat evs none).mpr (Or.inr hex)
      intro hmap
      apply hne
      cases hsl : specEventsLookup evs cat with
      | none => exact hsl
      | some v =>
        rw [hsl] at hmap
        simp at hmap

/-- C10: the reconciliation step unconditionally selects `events.InTransit`,
`events.Delivered` and `events.InfoReceived`, so the column selection succeeds
exactly when each of the three event categories is present in at least one
resolved record (otherwise pandas raises a `KeyError` and the run fails before
any table is produced); and a record has an `events.<cat>` key exactly when
its payload carries an event with both fields whose derived category is
`cat`. -/
theorem claim_C10 (output : List (List (String × CellValue)))
    (hrec : ∀ r ∈ output, ∃ p : Payload, r = build_order_data p) :
    (select_columns_ok output = true ↔
      ∀ cat ∈ (["InTransit", "Delivered", "InfoReceived"] : List String),
        ∃ r ∈ output, ("events." ++ cat) ∈ dictKeys r)
    ∧ (∀ (p : Payload) (cat : String),
        ("events." ++ cat) ∈ dictKeys (build_order_data p) ↔
          ∃ evs, p.events = some evs ∧ ∃ e ∈ evs, ∃ ss dt,
            e.sub_status = some ss ∧ e.time_raw_date = some dt ∧ specCategory ss = cat) := by
  refine ⟨?_, fun p cat => events_key_mem_build_keys p cat⟩
  have hframe : ∀ c, frame_has_column output c = true ↔ ∃ r ∈ output, c ∈ dictKeys r := by
    intro c
    simp [frame_has_column, List.any_eq_true, List.contains, List.elem_iff]
  constructor
  · intro hsel cat hcat
    have hto : ∀ c : String, c ∈ selected_columns → frame_has_column output c = true :=
      List.all_eq_true.mp hsel
    simp only [List.mem_cons, List.mem_singleton, List.not_mem_nil, or_false] at hcat
    rcases hcat with rfl | rfl | rfl
    · rw [← hframe, show ("events." ++ "InTransit" : String) = "events.InTransit" from rfl]
      exact hto "events.InTransit" (by decide)
    · rw [← hframe, show ("events." ++ "Delivered" : String) = "events.Delivered" from rfl]
      exact hto "events.Delivered" (by decide)
    · rw [← hframe, show ("events." ++ "InfoReceived" : String) = "events.InfoReceived" from rfl]
      exact hto "events.InfoReceived" (by decide)
  · intro h
    obtain ⟨r0, hr0, -⟩ := h "InTransit" (by simp)
    obtain ⟨p0, hp0⟩ := hrec r0 hr0
    have hbase : ∀ c : String, c ∈ dictKeys (base_order_data p0) →
        frame_has_column output c = true := by
      intro c hc
      refine (hframe c).mpr ⟨r0, hr0, ?_⟩
      rw [hp0]
      exact base_mem_build_keys p0 c hc
    have hev : ∀ cat : String,
        cat ∈ (["InTransit", "Delivered", "InfoReceived"] : List String) →
        ∀ c : String, c = "events." ++ cat → frame_has_column output c = true := by
      intro cat hcat c hc
      subst hc
      exact (hframe _).mpr (h cat hcat)
    apply List.all_eq_true.mpr
    intro c hc
    simp only [selected_columns, List.mem_cons, List.mem_singleton,
      List.not_mem_nil, or_false] at hc
    rcases hc with rfl | rfl | rfl | rfl | rfl | rfl | rfl | rfl | rfl | rfl
    · exact hbase _ (by rw [base_keys_eq]; decide)
    · exact hbase _ (by rw [base_keys_eq]; decide)
    · exact hbase _ (by rw [base_keys_eq]; decide)
    · exact hbase _ (by rw [base_keys_eq]; decide)
    · exact hbase _ (by rw [base_keys_eq]; decide)
    · exact hbase _ (by rw [base_keys_eq]; decide)
    · exact hbase _ (by rw [base_keys_eq]; decide)
    · exact hev "InTransit" (by simp) _ rfl
    · exact hev "Delivered" (by simp) _ rfl
    · exact hev "InfoReceived" (by simp) _ rfl

/-- Witness for C10: a one-record output whose events exercise all three
selected categories. -/
theorem claim_C10_witness :
    (select_columns_ok [build_order_data payload_full] = true ↔
      ∀ cat ∈ (["InTransit", "Delivered", "InfoReceived"] : List String),
        ∃ r ∈ [build_order_data payload_full], ("events." ++ cat) ∈ dictKeys r)
    ∧ (∀ (p : Payload) (cat : String),
        ("events." ++ cat) ∈ dictKeys (build_order_data p) ↔
          ∃ evs, p.events = some evs ∧ ∃ e ∈ evs, ∃ ss dt,
            e.sub_status = some ss ∧ e.time_raw_date = some dt ∧ specCategory ss = cat) :=
  claim_C10 [build_order_data payload_full]
    (fun r hr => ⟨payload_full, by simpa using hr⟩)

end SeventeenTrack
